import Mathlib

/-!
Shallow embedding of the V4-std hardware-abstraction layer:
the device descriptor table (ddt.cpp), the SYS handler registry
(sys_handlers.cpp) and the LED operation handlers (sys_led.cpp).

Machine integers are modelled as follows: `uint8_t`, `uint16_t` and
`uint32_t` values are `Nat` (constructed in range by the callers),
`int32_t` arguments are `Int`, and the C++ conversions that matter
(static_cast to uint8_t, arithmetic shift plus mask on an int32) are
written out explicitly on the two's-complement bit pattern.
-/

namespace V4std

/-- Device descriptor (ddt_types.h, `v4dev_desc_t`): kind, role, index and
flags are uint8_t fields, handle is a uint32_t platform identity. -/
structure v4dev_desc_t where
  kind : Nat
  role : Nat
  index : Nat
  flags : Nat
  handle : Nat
deriving DecidableEq, Repr

/-- Enumerator `V4DEV_LED` of `v4dev_kind_t` (ddt_types.h). -/
def V4DEV_LED : Int := 1

/-- Flag bit `V4DEV_FLAG_ACTIVE_LOW = (1 << 0)` (ddt_types.h). -/
def V4DEV_FLAG_ACTIVE_LOW : Nat := 1

/-- Two's-complement bit pattern of an int32_t value, as a Nat below 2^32. -/
def toBits32 (x : Int) : Nat := (x % 4294967296).toNat

/-- C++ `static_cast<uint8_t>(x)` on an int32_t: reduction of the
two's-complement value modulo 256. -/
def u8cast (x : Int) : Nat := (x % 256).toNat

/-- Matching test of ddt.cpp `find_device`'s loop body:
`dev.kind == kind && dev.role == role && dev.index == index`, where the
uint8_t fields are integer-promoted against the enum-typed arguments. -/
def descMatches (d : v4dev_desc_t) (kind role : Int) (index : Nat) : Bool :=
  ((d.kind : Int) == kind) && ((d.role : Int) == role) && (d.index == index)

/-- Installed DDT provider state: `Ddt::provider_` is a possibly-null
pointer to a provider whose `get_devices()` returns a fixed sequence. -/
def DdtState := Option (List v4dev_desc_t)

/-- Embeds ddt.cpp `Ddt::find_device`: null provider gives null, otherwise
a linear scan returning the first descriptor matching kind, role, index. -/
def find_device (prov : DdtState) (kind role : Int) (index : Nat) :
    Option v4dev_desc_t :=
  match prov with
  | none => none
  | some devs => devs.find? (fun d => descMatches d kind role index)

/-- Embeds ddt.cpp `Ddt::find_default_device`: `find_device` at index 0. -/
def find_default_device (prov : DdtState) (kind role : Int) :
    Option v4dev_desc_t :=
  find_device prov kind role 0

/-- Embeds ddt.cpp `Ddt::count_devices`: 0 for a null provider, otherwise
the number of descriptors whose kind matches. -/
def count_devices (prov : DdtState) (kind : Int) : Nat :=
  match prov with
  | none => 0
  | some devs => (devs.filter (fun d => (d.kind : Int) == kind)).length

/-- Embeds ddt.cpp `Ddt::get_all_devices`: empty for a null provider,
otherwise the provider's full sequence. -/
def get_all_devices (prov : DdtState) : List v4dev_desc_t :=
  match prov with
  | none => []
  | some devs => devs

/-- SYS handler signature (sys_handlers.hpp `SysHandler`):
`(sys_id, arg0, arg1, arg2) -> int32_t`. -/
def SysHandler := Nat → Int → Int → Int → Int

/-- Handler registry state: the mapping held by the global
`handler_registry` (sys_handlers.cpp), as an association list with
unique keys from uint16_t sys_id to the stored handler. -/
def RegistryState := List (Nat × SysHandler)

/-- Keyed update of the registry, the effect of
`handler_registry[sys_id] = handler` on the map: replace the value of an
existing key in place, or append a new entry. -/
def regInsert (reg : RegistryState) (sys_id : Nat) (f : SysHandler) :
    RegistryState :=
  match reg with
  | [] => [(sys_id, f)]
  | (k, g) :: rest =>
      if k = sys_id then (k, f) :: rest else (k, g) :: regInsert rest sys_id f

/-- Embeds sys_handlers.cpp `register_sys_handler`: a null handler (modelled
as `none`) fails with no mutation; otherwise the mapping is inserted or
replaced and the call returns true. -/
def register_sys_handler (reg : RegistryState) (sys_id : Nat)
    (handler : Option SysHandler) : Bool × RegistryState :=
  match handler with
  | none => (false, reg)
  | some f => (true, regInsert reg sys_id f)

/-- Embeds sys_handlers.cpp `unregister_sys_handler`:
`handler_registry.erase(sys_id)`. -/
def unregister_sys_handler (reg : RegistryState) (sys_id : Nat) :
    RegistryState :=
  reg.filter (fun p => p.1 != sys_id)

/-- Embeds sys_handlers.cpp `get_sys_handler`: map lookup, null (`none`)
when the key is absent. -/
def get_sys_handler (reg : RegistryState) (sys_id : Nat) :
    Option SysHandler :=
  match reg with
  | [] => none
  | (k, g) :: rest => if k = sys_id then some g else get_sys_handler rest sys_id

/-- Embeds sys_handlers.cpp `get_sys_handler_count`:
`handler_registry.size()`. -/
def get_sys_handler_count (reg : RegistryState) : Nat := reg.length

/-- Embeds sys_handlers.cpp `invoke_sys_handler`: look the handler up and
call it, or return the -1 sentinel when none is registered. -/
def invoke_sys_handler (reg : RegistryState) (sys_id : Nat)
    (arg0 arg1 arg2 : Int) : Int :=
  match get_sys_handler reg sys_id with
  | none => -1
  | some handler => handler sys_id arg0 arg1 arg2

/-- Embeds sys_handlers.cpp `clear_sys_handlers`. -/
def clear_sys_handlers (_reg : RegistryState) : RegistryState := []

/-- LED HAL interface (sys_led.hpp `LedHal`): a platform driver with
`set_led(handle, state, active_low) -> bool` and
`get_led(handle, active_low) -> bool`. The driver may carry state of some
type S; each virtual call is a pure state transformer on S. -/
structure LedHal (S : Type) where
  set_led : S → Nat → Bool → Bool → Bool × S
  get_led : S → Nat → Bool → Bool × S

/-- Embeds sys_led.cpp `find_led`: reject a kind other than `V4DEV_LED`,
then resolve through `Ddt::find_device` with the index argument cast to
uint8_t. -/
def find_led (prov : DdtState) (kind role index : Int) :
    Option v4dev_desc_t :=
  if kind != V4DEV_LED then none
  else find_device prov kind role (u8cast index)

/-- Embeds sys_led.cpp `sys_led_on`: fail (0) with no driver call when the
HAL is null or the device does not resolve; otherwise set logical ON with
the descriptor's active-low flag and map driver success to 1/0. -/
def sys_led_on {S : Type} (hal : Option (LedHal S)) (prov : DdtState)
    (st : S) (sys_id : Nat) (arg0 arg1 arg2 : Int) : Int × S :=
  match hal with
  | none => (0, st)
  | some h =>
    match find_led prov arg0 arg1 arg2 with
    | none => (0, st)
    | some led =>
      let active_low : Bool := led.flags &&& V4DEV_FLAG_ACTIVE_LOW != 0
      let r := h.set_led st led.handle true active_low
      (if r.1 then 1 else 0, r.2)

/-- Embeds sys_led.cpp `sys_led_off`: identical to `sys_led_on` with
logical OFF. -/
def sys_led_off {S : Type} (hal : Option (LedHal S)) (prov : DdtState)
    (st : S) (sys_id : Nat) (arg0 arg1 arg2 : Int) : Int × S :=
  match hal with
  | none => (0, st)
  | some h =>
    match find_led prov arg0 arg1 arg2 with
    | none => (0, st)
    | some led =>
      let active_low : Bool := led.flags &&& V4DEV_FLAG_ACTIVE_LOW != 0
      let r := h.set_led st led.handle false active_low
      (if r.1 then 1 else 0, r.2)

/-- Embeds sys_led.cpp `sys_led_toggle`: read the current state through the
driver, invert it, write it back; 1 on driver write success. -/
def sys_led_toggle {S : Type} (hal : Option (LedHal S)) (prov : DdtState)
    (st : S) (sys_id : Nat) (arg0 arg1 arg2 : Int) : Int × S :=
  match hal with
  | none => (0, st)
  | some h =>
    match find_led prov arg0 arg1 arg2 with
    | none => (0, st)
    | some led =>
      let active_low : Bool := led.flags &&& V4DEV_FLAG_ACTIVE_LOW != 0
      let g := h.get_led st led.handle active_low
      let r := h.set_led g.2 led.handle (!g.1) active_low
      (if r.1 then 1 else 0, r.2)

/-- Index decoded by sys_led.cpp `sys_led_set`:
`(arg2 >> 16) & 0xFF` on the int32_t argument, i.e. bits 16 to 23 of its
two's-complement bit pattern. -/
def ledSetIndex (arg2 : Int) : Nat := (toBits32 arg2 >>> 16) &&& 255

/-- State decoded by sys_led.cpp `sys_led_set`:
`(arg2 & 0xFFFF) != 0`, i.e. the low 16 bits of the bit pattern tested
against zero. -/
def ledSetState (arg2 : Int) : Bool := (toBits32 arg2 &&& 65535) != 0

/-- Embeds sys_led.cpp `sys_led_set`: decode index (bits 16 to 23) and
state (bits 0 to 15, nonzero = ON) from arg2, resolve the device and write
the decoded state through the driver. -/
def sys_led_set {S : Type} (hal : Option (LedHal S)) (prov : DdtState)
    (st : S) (sys_id : Nat) (arg0 arg1 arg2 : Int) : Int × S :=
  match hal with
  | none => (0, st)
  | some h =>
    let index : Nat := ledSetIndex arg2
    let state : Bool := ledSetState arg2
    match find_led prov arg0 arg1 (index : Int) with
    | none => (0, st)
    | some led =>
      let active_low : Bool := led.flags &&& V4DEV_FLAG_ACTIVE_LOW != 0
      let r := h.set_led st led.handle state active_low
      (if r.1 then 1 else 0, r.2)

/-- Embeds sys_led.cpp `sys_led_get`: resolve the device, read its state
through the driver and return 1 for ON, 0 for OFF. -/
def sys_led_get {S : Type} (hal : Option (LedHal S)) (prov : DdtState)
    (st : S) (sys_id : Nat) (arg0 arg1 arg2 : Int) : Int × S :=
  match hal with
  | none => (0, st)
  | some h =>
    match find_led prov arg0 arg1 arg2 with
    | none => (0, st)
    | some led =>
      let active_low : Bool := led.flags &&& V4DEV_FLAG_ACTIVE_LOW != 0
      let g := h.get_led st led.handle active_low
      (if g.1 then 1 else 0, g.2)

/-- Pointwise update of a handle-indexed state map, the effect of
`led_states[handle] = v` in the repository's MockLedHal
(tests/test_sys_led.cpp). -/
def halUpdate (st : Nat → Bool) (handle : Nat) (v : Bool) : Nat → Bool :=
  fun x => if x = handle then v else st x

/-- Embeds MockLedHal (tests/test_sys_led.cpp), the repository's reference
LED driver: `set_led` records `physical_state = active_low ? !state : state`
under the handle and succeeds; `get_led` reads the recorded physical state
back through the same inversion. Absent handles read as false. -/
def mockLedHal : LedHal (Nat → Bool) where
  set_led := fun st handle state active_low =>
    (true, halUpdate st handle (if active_low then !state else state))
  get_led := fun st handle active_low =>
    ((if active_low then !(st handle) else st handle), st)

/-! Helper lemmas on the registry's keyed update. -/

theorem get_regInsert_self (reg : RegistryState) (sys_id : Nat)
    (f : SysHandler) :
    get_sys_handler (regInsert reg sys_id f) sys_id = some f := by
  induction reg with
  | nil => simp [regInsert, get_sys_handler]
  | cons p rest ih =>
    obtain ⟨k, g⟩ := p
    by_cases hk : k = sys_id
    · simp [regInsert, hk, get_sys_handler]
    · simp [regInsert, hk, get_sys_handler, ih]

theorem get_regInsert_ne (reg : RegistryState) (sys_id : Nat)
    (f : SysHandler) (sid : Nat) (hne : sid ≠ sys_id) :
    get_sys_handler (regInsert reg sys_id f) sid = get_sys_handler reg sid := by
  have hne' : sys_id ≠ sid := Ne.symm hne
  induction reg with
  | nil => simp [regInsert, get_sys_handler, hne']
  | cons p rest ih =>
    obtain ⟨k, g⟩ := p
    by_cases hk : k = sys_id
    · subst hk
      simp [regInsert, get_sys_handler, hne']
    · by_cases hsid : k = sid
      · simp [regInsert, hk, get_sys_handler, hsid, hne]
      · simp [regInsert, hk, get_sys_handler, hsid, ih]

theorem regInsert_length_of_mem (reg : RegistryState) (sys_id : Nat)
    (f : SysHandler) (h : get_sys_handler reg sys_id ≠ none) :
    (regInsert reg sys_id f).length = reg.length := by
  induction reg with
  | nil => exact absurd rfl h
  | cons p rest ih =>
    obtain ⟨k, g⟩ := p
    by_cases hk : k = sys_id
    · simp [regInsert, hk]
    · simp only [get_sys_handler, hk, if_false] at h
      simp [regInsert, hk, ih h]

/-- C3: invoking an opcode with no registered handler returns exactly the
sentinel -1; invoking a registered opcode returns the registered handler
applied to (opcode, arg0, arg1, arg2). -/
theorem invoke_dispatch (reg : RegistryState) (sys_id : Nat)
    (arg0 arg1 arg2 : Int) :
    (get_sys_handler reg sys_id = none →
      invoke_sys_handler reg sys_id arg0 arg1 arg2 = -1) ∧
    (∀ h : SysHandler, get_sys_handler reg sys_id = some h →
      invoke_sys_handler reg sys_id arg0 arg1 arg2 = h sys_id arg0 arg1 arg2) := by
  constructor
  · intro hnone
    simp [invoke_sys_handler, hnone]
  · intro h hsome
    simp [invoke_sys_handler, hsome]

/-- Concrete handler used by registry witnesses. -/
def demoHandler : SysHandler := fun _ _ _ a2 => a2 + 7

/-- Witness for C3 at concrete registries: empty registry yields -1, a
registry holding demoHandler at opcode 5 yields the handler's result. -/
theorem invoke_dispatch_witness :
    invoke_sys_handler [] 5 0 0 0 = -1 ∧
    invoke_sys_handler [(5, demoHandler)] 5 1 2 3 = demoHandler 5 1 2 3 :=
  ⟨(invoke_dispatch [] 5 0 0 0).1 rfl,
   (invoke_dispatch [(5, demoHandler)] 5 1 2 3).2 demoHandler rfl⟩

/-- C8: registering a null handler returns false and leaves the registry
unchanged; registering a non-null handler returns true, maps the opcode to
it, and leaves every other opcode's mapping unchanged. -/
theorem register_null_iff (reg : RegistryState) (sys_id : Nat)
    (handler : Option SysHandler) :
    ((register_sys_handler reg sys_id handler).1 = false ↔ handler = none) ∧
    (handler = none → (register_sys_handler reg sys_id handler).2 = reg) ∧
    (∀ f : SysHandler, handler = some f →
      (register_sys_handler reg sys_id handler).1 = true ∧
      get_sys_handler (register_sys_handler reg sys_id handler).2 sys_id
        = some f ∧
      ∀ sid, sid ≠ sys_id →
        get_sys_handler (register_sys_handler reg sys_id handler).2 sid
          = get_sys_handler reg sid) := by
  refine ⟨?_, ?_, ?_⟩
  · cases handler <;> simp [register_sys_handler]
  · intro hnone
    subst hnone
    rfl
  · intro f hf
    subst hf
    exact ⟨rfl, get_regInsert_self reg sys_id f,
      fun sid hne => get_regInsert_ne reg sys_id f sid hne⟩

/-- Witness for C8 at a concrete registry: null registration fails and
mutates nothing; registering demoHandler at opcode 3 succeeds and maps 3
to it while opcode 4 stays unmapped. -/
theorem register_null_iff_witness :
    ((register_sys_handler [] 3 none).1 = false ↔ (none : Option SysHandler) = none) ∧
    (register_sys_handler [] 3 none).2 = [] ∧
    (register_sys_handler [] 3 (some demoHandler)).1 = true ∧
    get_sys_handler (register_sys_handler [] 3 (some demoHandler)).2 3
      = some demoHandler ∧
    get_sys_handler (register_sys_handler [] 3 (some demoHandler)).2 4
      = get_sys_handler [] 4 := by
  refine ⟨(register_null_iff [] 3 none).1, (register_null_iff [] 3 none).2.1 rfl,
    ?_⟩
  obtain ⟨h1, h2, h3⟩ :=
    (register_null_iff [] 3 (some demoHandler)).2.2 demoHandler rfl
  exact ⟨h1, h2, h3 4 (by decide)⟩

/-- C9: registering the same opcode twice with non-null handlers leaves the
count unchanged after the second registration, and the second handler is
the one returned by lookup and applied by invoke. -/
theorem register_replace (reg : RegistryState) (sys_id : Nat)
    (f1 f2 : SysHandler) :
    get_sys_handler_count
        (register_sys_handler
          (register_sys_handler reg sys_id (some f1)).2 sys_id (some f2)).2
      = get_sys_handler_count (register_sys_handler reg sys_id (some f1)).2 ∧
    get_sys_handler
        (register_sys_handler
          (register_sys_handler reg sys_id (some f1)).2 sys_id (some f2)).2
        sys_id
      = some f2 ∧
    ∀ arg0 arg1 arg2 : Int,
      invoke_sys_handler
          (register_sys_handler
            (register_sys_handler reg sys_id (some f1)).2 sys_id (some f2)).2
          sys_id arg0 arg1 arg2
        = f2 sys_id arg0 arg1 arg2 := by
  have hmem : get_sys_handler (regInsert reg sys_id f1) sys_id ≠ none := by
    rw [get_regInsert_self]
    simp
  refine ⟨?_, ?_, ?_⟩
  · simpa [register_sys_handler, get_sys_handler_count] using
      regInsert_length_of_mem (regInsert reg sys_id f1) sys_id f2 hmem
  · simpa [register_sys_handler] using
      get_regInsert_self (regInsert reg sys_id f1) sys_id f2
  · intro a0 a1 a2
    simp [invoke_sys_handler, register_sys_handler,
      get_regInsert_self (regInsert reg sys_id f1) sys_id f2]

/-- C7: with no provider installed, every find query reports not-found,
the full sequence is empty, and every kind counts 0 devices. -/
theorem ddt_empty_queries :
    (∀ (kind role : Int) (index : Nat), find_device none kind role index = none) ∧
    get_all_devices none = [] ∧
    (∀ kind : Int, count_devices none kind = 0) :=
  ⟨fun _ _ _ => rfl, rfl, fun _ => rfl⟩

/-- Uniqueness relation of the spec's DDT invariant: two descriptors differ
in kind, role or index. -/
def TripleDistinct (a b : v4dev_desc_t) : Prop :=
  a.kind ≠ b.kind ∨ a.role ≠ b.role ∨ a.index ≠ b.index

instance (a b : v4dev_desc_t) : Decidable (TripleDistinct a b) := by
  unfold TripleDistinct
  infer_instance

theorem descMatches_self_iff (a d : v4dev_desc_t) :
    descMatches a (d.kind : Int) (d.role : Int) d.index = true ↔
      a.kind = d.kind ∧ a.role = d.role ∧ a.index = d.index := by
  simp [descMatches, and_assoc]

theorem find_scan_mem_uniq :
    ∀ devs : List v4dev_desc_t, devs.Pairwise TripleDistinct →
      ∀ d ∈ devs,
        devs.find? (fun x => descMatches x (d.kind : Int) (d.role : Int) d.index)
          = some d := by
  intro devs
  induction devs with
  | nil => intro _ d hd; cases hd
  | cons a rest ih =>
    intro hpw d hd
    obtain ⟨hrel, hrest⟩ := List.pairwise_cons.mp hpw
    rcases List.mem_cons.mp hd with rfl | hmem
    · exact List.find?_cons_of_pos _ ((descMatches_self_iff d d).mpr ⟨rfl, rfl, rfl⟩)
    · have hne : ¬ descMatches a (d.kind : Int) (d.role : Int) d.index = true := by
        rw [descMatches_self_iff]
        rintro ⟨h1, h2, h3⟩
        rcases hrel d hmem with h | h | h
        · exact h h1
        · exact h h2
        · exact h h3
      rw [List.find?_cons_of_neg
        (p := fun x => descMatches x (d.kind : Int) (d.role : Int) d.index)
        _ hne]
      exact ih hrest d hmem

theorem find_scan_first_match (kind role : Int) (index : Nat) :
    ∀ (pre : List v4dev_desc_t) (d : v4dev_desc_t) (post : List v4dev_desc_t),
      descMatches d kind role index = true →
      (∀ e ∈ pre, descMatches e kind role index = false) →
      (pre ++ d :: post).find? (fun x => descMatches x kind role index)
        = some d := by
  intro pre
  induction pre with
  | nil =>
    intro d post hd _
    exact List.find?_cons_of_pos _ hd
  | cons a rest ih =>
    intro d post hd hpre
    have ha : descMatches a kind role index = false := hpre a (List.mem_cons_self a rest)
    rw [List.cons_append, List.find?_cons_of_neg _ (by simp [ha])]
    exact ih d post hd (fun e he => hpre e (List.mem_cons_of_mem a he))

/-- C6: in an installed table whose (kind, role, index) triples are
pairwise distinct, find_device at any member descriptor's own triple
returns exactly that descriptor; and in general the linear scan returns
the first descriptor of the sequence matching all of kind, role and
index. -/
theorem find_device_finds_member (devs : List v4dev_desc_t)
    (huniq : devs.Pairwise TripleDistinct) :
    (∀ d ∈ devs,
      find_device (some devs) (d.kind : Int) (d.role : Int) d.index = some d) ∧
    (∀ (kind role : Int) (index : Nat) (pre : List v4dev_desc_t)
        (d : v4dev_desc_t) (post : List v4dev_desc_t),
      devs = pre ++ d :: post →
      descMatches d kind role index = true →
      (∀ e ∈ pre, descMatches e kind role index = false) →
      find_device (some devs) kind role index = some d) := by
  constructor
  · intro d hd
    exact find_scan_mem_uniq devs huniq d hd
  · intro kind role index pre d post hsplit hd hpre
    rw [hsplit]
    exact find_scan_first_match kind role index pre d post hd hpre

/-- Concrete descriptor table mirroring the repository's MockDdtProvider
(tests/test_sys_led.cpp): a STATUS LED on handle 7, a USER LED on handle 8
and an active-low USER LED on handle 10. -/
def demoDevs : List v4dev_desc_t :=
  [⟨1, 1, 0, 0, 7⟩, ⟨1, 2, 0, 0, 8⟩, ⟨1, 2, 1, 1, 10⟩]

/-- All-off driver state: every handle reads physically LOW. -/
def allOff : Nat → Bool := fun _ => false

/-- Witness for C6 on the concrete three-descriptor table: lookup at the
third descriptor's triple returns it, both through the membership part and
through the first-match part of the theorem. -/
theorem find_device_finds_member_witness :
    find_device (some demoDevs) 1 2 1 = some ⟨1, 2, 1, 1, 10⟩ ∧
    find_device (some demoDevs) 1 2 0 = some ⟨1, 2, 0, 0, 8⟩ := by
  constructor
  · have h := (find_device_finds_member demoDevs (by decide)).1
      ⟨1, 2, 1, 1, 10⟩ (by decide)
    simpa using h
  · have h := (find_device_finds_member demoDevs (by decide)).2 1 2 0
      [⟨1, 1, 0, 0, 7⟩] ⟨1, 2, 0, 0, 8⟩ [⟨1, 2, 1, 1, 10⟩]
      (by decide) (by decide) (by decide)
    simpa using h

/-- C1: polarity is applied exactly once per operation along the
handler-plus-driver pipeline: on a resolvable descriptor with the
active-low flag set, ON succeeds (returns 1), the driver's recorded
physical state for the descriptor's handle is LOW (false), and a
subsequent GET on the same (kind, role, index) returns logical-ON (1). -/
theorem led_active_low_round_trip (prov : DdtState) (st : Nat → Bool)
    (sys_id : Nat) (kind role index : Int) (d : v4dev_desc_t)
    (hfind : find_led prov kind role index = some d)
    (hflag : d.flags &&& V4DEV_FLAG_ACTIVE_LOW ≠ 0) :
    (sys_led_on (some mockLedHal) prov st sys_id kind role index).1 = 1 ∧
    (sys_led_on (some mockLedHal) prov st sys_id kind role index).2 d.handle
      = false ∧
    (sys_led_get (some mockLedHal) prov
        (sys_led_on (some mockLedHal) prov st sys_id kind role index).2
        sys_id kind role index).1 = 1 := by
  have hb : (d.flags &&& V4DEV_FLAG_ACTIVE_LOW != 0) = true := by
    simpa using hflag
  refine ⟨?_, ?_, ?_⟩ <;>
    simp [sys_led_on, sys_led_get, hfind, hb, mockLedHal, halUpdate]

/-- Witness for C1 at the concrete active-low USER LED (handle 10) of the
demo table, starting from the all-off driver state. -/
theorem led_active_low_round_trip_witness :
    (sys_led_on (some mockLedHal) (some demoDevs) allOff 0 1 2 1).1 = 1 ∧
    (sys_led_on (some mockLedHal) (some demoDevs) allOff 0 1 2 1).2 10
      = false ∧
    (sys_led_get (some mockLedHal) (some demoDevs)
        (sys_led_on (some mockLedHal) (some demoDevs) allOff 0 1 2 1).2
        0 1 2 1).1 = 1 :=
  led_active_low_round_trip (some demoDevs) allOff 0 1 2 1 ⟨1, 2, 1, 1, 10⟩
    (by decide) (by decide)

/-- C5: two consecutive TOGGLE invocations on the same (kind, role, index)
both succeed and restore the driver's recorded state for the device's
handle (and hence its logical state), for every resolvable LED device,
with the driver reading back the last state set. -/
theorem led_toggle_twice_restores (prov : DdtState) (st : Nat → Bool)
    (sys_id : Nat) (kind role index : Int) (d : v4dev_desc_t)
    (hfind : find_led prov kind role index = some d) :
    (sys_led_toggle (some mockLedHal) prov st sys_id kind role index).1
      = 1 ∧
    (sys_led_toggle (some mockLedHal) prov
        (sys_led_toggle (some mockLedHal) prov st sys_id kind role index).2
        sys_id kind role index).1 = 1 ∧
    (sys_led_toggle (some mockLedHal) prov
        (sys_led_toggle (some mockLedHal) prov st sys_id kind role index).2
        sys_id kind role index).2 d.handle = st d.handle := by
  cases hb : (d.flags &&& V4DEV_FLAG_ACTIVE_LOW != 0) <;>
    cases hs : st d.handle <;>
      refine ⟨?_, ?_, ?_⟩ <;>
        simp [sys_led_toggle, hfind, hb, hs, mockLedHal, halUpdate]

/-- Witness for C5 at the concrete active-high USER LED (handle 8) of the
demo table, starting from the all-off driver state. -/
theorem led_toggle_twice_restores_witness :
    (sys_led_toggle (some mockLedHal) (some demoDevs) allOff 0 1 2 0).1
      = 1 ∧
    (sys_led_toggle (some mockLedHal) (some demoDevs)
        (sys_led_toggle (some mockLedHal) (some demoDevs) allOff 0 1 2 0).2
        0 1 2 0).1 = 1 ∧
    (sys_led_toggle (some mockLedHal) (some demoDevs)
        (sys_led_toggle (some mockLedHal) (some demoDevs) allOff 0 1 2 0).2
        0 1 2 0).2 8 = allOff 8 :=
  led_toggle_twice_restores (some demoDevs) allOff 0 1 2 0 ⟨1, 2, 0, 0, 8⟩
    (by decide)

/-! Helper lemmas rewriting the bitmask operations of sys_led_set into
division and remainder form. -/

theorem nat_and_255 (x : Nat) : x &&& 255 = x % 256 := by
  have h := Nat.and_pow_two_sub_one_eq_mod x 8
  norm_num at h
  exact h

theorem nat_and_65535 (x : Nat) : x &&& 65535 = x % 65536 := by
  have h := Nat.and_pow_two_sub_one_eq_mod x 16
  norm_num at h
  exact h

theorem ledSetIndex_eq_div_mod (arg2 : Int) :
    ledSetIndex arg2 = toBits32 arg2 / 65536 % 256 := by
  unfold ledSetIndex
  rw [Nat.shiftRight_eq_div_pow, nat_and_255]

theorem ledSetIndex_pack (index : Nat) (s : Int) (hidx : index < 256)
    (hs0 : 0 ≤ s) (hs1 : s < 65536) :
    ledSetIndex ((index : Int) * 65536 + s) = index := by
  rw [ledSetIndex_eq_div_mod]
  unfold toBits32
  omega

theorem ledSetState_pack_on (index : Nat) (hidx : index < 256) :
    ledSetState ((index : Int) * 65536 + 1) = true := by
  unfold ledSetState toBits32
  rw [nat_and_65535]
  simp only [bne_iff_ne, ne_eq]
  omega

theorem ledSetState_pack_off (index : Nat) (hidx : index < 256) :
    ledSetState ((index : Int) * 65536) = false := by
  unfold ledSetState toBits32
  rw [nat_and_65535]
  simp only [bne_eq_false_iff_eq]
  omega

/-- C2: for a device resolvable at `index` (below 256), invoking SET with
arg2 = (index << 16) | 1 succeeds and leaves the device logically ON (a
subsequent GET returns 1), and invoking SET with arg2 = (index << 16) | 0
succeeds and leaves it logically OFF (a subsequent GET returns 0). -/
theorem led_set_packing (prov : DdtState) (st : Nat → Bool) (sys_id : Nat)
    (kind role : Int) (index : Nat) (hidx : index < 256) (d : v4dev_desc_t)
    (hfind : find_led prov kind role (index : Int) = some d) :
    (sys_led_set (some mockLedHal) prov st sys_id kind role
        ((index : Int) * 65536 + 1)).1 = 1 ∧
    (sys_led_get (some mockLedHal) prov
        (sys_led_set (some mockLedHal) prov st sys_id kind role
          ((index : Int) * 65536 + 1)).2 sys_id kind role (index : Int)).1
      = 1 ∧
    (sys_led_set (some mockLedHal) prov st sys_id kind role
        ((index : Int) * 65536)).1 = 1 ∧
    (sys_led_get (some mockLedHal) prov
        (sys_led_set (some mockLedHal) prov st sys_id kind role
          ((index : Int) * 65536)).2 sys_id kind role (index : Int)).1
      = 0 := by
  have h1 : ledSetIndex ((index : Int) * 65536 + 1) = index :=
    ledSetIndex_pack index 1 hidx (by norm_num) (by norm_num)
  have h0 : ledSetIndex ((index : Int) * 65536) = index := by
    have h := ledSetIndex_pack index 0 hidx (by norm_num) (by norm_num)
    simpa using h
  have hs1 : ledSetState ((index : Int) * 65536 + 1) = true :=
    ledSetState_pack_on index hidx
  have hs0 : ledSetState ((index : Int) * 65536) = false :=
    ledSetState_pack_off index hidx
  cases hb : (d.flags &&& V4DEV_FLAG_ACTIVE_LOW != 0) <;>
    refine ⟨?_, ?_, ?_, ?_⟩ <;>
      simp [sys_led_set, sys_led_get, h1, h0, hs1, hs0, hfind, hb,
        mockLedHal, halUpdate]

/-- Witness for C2 at the concrete STATUS LED (index 0, handle 7) of the
demo table, starting from the all-off driver state. -/
theorem led_set_packing_witness :
    (sys_led_set (some mockLedHal) (some demoDevs) allOff 0 1 1
        ((0 : Int) * 65536 + 1)).1 = 1 ∧
    (sys_led_get (some mockLedHal) (some demoDevs)
        (sys_led_set (some mockLedHal) (some demoDevs) allOff 0 1 1
          ((0 : Int) * 65536 + 1)).2 0 1 1 (0 : Int)).1 = 1 ∧
    (sys_led_set (some mockLedHal) (some demoDevs) allOff 0 1 1
        ((0 : Int) * 65536)).1 = 1 ∧
    (sys_led_get (some mockLedHal) (some demoDevs)
        (sys_led_set (some mockLedHal) (some demoDevs) allOff 0 1 1
          ((0 : Int) * 65536)).2 0 1 1 (0 : Int)).1 = 0 :=
  led_set_packing (some demoDevs) allOff 0 1 1 0 (by norm_num)
    ⟨1, 1, 0, 0, 7⟩ (by decide)

/-- C4: every LED handler returns 0 and leaves the driver state untouched
whenever a precondition of that invocation is unresolved: the HAL
capability is absent, or the handler's own DDT lookup (at the index it
decodes from arg2) yields no descriptor; and a kind argument other than
the LED device kind forces every such lookup to fail. -/
theorem led_handlers_fail_without_effects {S : Type}
    (hal : Option (LedHal S)) (prov : DdtState) (st : S) (sys_id : Nat)
    (arg0 arg1 arg2 : Int) :
    (arg0 ≠ V4DEV_LED → ∀ i : Int, find_led prov arg0 arg1 i = none) ∧
    (hal = none ∨ find_led prov arg0 arg1 arg2 = none →
      sys_led_on hal prov st sys_id arg0 arg1 arg2 = (0, st) ∧
      sys_led_off hal prov st sys_id arg0 arg1 arg2 = (0, st) ∧
      sys_led_toggle hal prov st sys_id arg0 arg1 arg2 = (0, st) ∧
      sys_led_get hal prov st sys_id arg0 arg1 arg2 = (0, st)) ∧
    (hal = none ∨ find_led prov arg0 arg1 (ledSetIndex arg2 : Int) = none →
      sys_led_set hal prov st sys_id arg0 arg1 arg2 = (0, st)) := by
  refine ⟨?_, ?_, ?_⟩
  · intro h i
    simp [find_led, h]
  · rintro (rfl | hf)
    · exact ⟨rfl, rfl, rfl, rfl⟩
    · cases hal with
      | none => exact ⟨rfl, rfl, rfl, rfl⟩
      | some hh =>
        refine ⟨?_, ?_, ?_, ?_⟩ <;>
          simp [sys_led_on, sys_led_off, sys_led_toggle, sys_led_get, hf]
  · rintro (rfl | hf)
    · rfl
    · cases hal with
      | none => rfl
      | some hh => simp [sys_led_set, hf]

/-- Witness for C4 on the populated demo table with the HAL installed:
index 99 resolves no device (the spec's own not-found scenario) and ON,
OFF, TOGGLE and GET all fail with no state change; SET with arg2 = 99 <<
16 decodes index 99 and likewise fails; a BUTTON kind argument makes the
lookup fail; and with no HAL installed ON fails unchanged as well. -/
theorem led_handlers_fail_without_effects_witness :
    find_led (some demoDevs) 2 2 0 = none ∧
    (sys_led_on (some mockLedHal) (some demoDevs) allOff 0 1 1 99
        = (0, allOff) ∧
      sys_led_off (some mockLedHal) (some demoDevs) allOff 0 1 1 99
        = (0, allOff) ∧
      sys_led_toggle (some mockLedHal) (some demoDevs) allOff 0 1 1 99
        = (0, allOff) ∧
      sys_led_get (some mockLedHal) (some demoDevs) allOff 0 1 1 99
        = (0, allOff)) ∧
    sys_led_set (some mockLedHal) (some demoDevs) allOff 0 1 1 6488064
      = (0, allOff) ∧
    sys_led_on (none : Option (LedHal (Nat → Bool))) (some demoDevs) allOff
      0 1 1 0 = (0, allOff) := by
  refine ⟨?_, ?_, ?_, ?_⟩
  · exact (led_handlers_fail_without_effects (some mockLedHal)
      (some demoDevs) allOff 0 2 2 0).1 (by decide) 0
  · exact (led_handlers_fail_without_effects (some mockLedHal)
      (some demoDevs) allOff 0 1 1 99).2.1 (Or.inr (by decide))
  · exact (led_handlers_fail_without_effects (some mockLedHal)
      (some demoDevs) allOff 0 1 1 6488064).2.2 (Or.inr (by decide))
  · exact ((led_handlers_fail_without_effects none (some demoDevs) allOff
      0 1 1 0).2.1 (Or.inl rfl)).1

theorem ledSet_decode_congr (arg2 hi : Int) :
    ledSetIndex (arg2 + hi * 16777216) = ledSetIndex arg2 ∧
    ledSetState (arg2 + hi * 16777216) = ledSetState arg2 := by
  have h1 : toBits32 (arg2 + hi * 16777216) % 65536
      = toBits32 arg2 % 65536 := by
    unfold toBits32
    omega
  have h2 : toBits32 (arg2 + hi * 16777216) / 65536 % 256
      = toBits32 arg2 / 65536 % 256 := by
    unfold toBits32
    omega
  constructor
  · rw [ledSetIndex_eq_div_mod, ledSetIndex_eq_div_mod, h2]
  · unfold ledSetState
    rw [nat_and_65535, nat_and_65535, h1]

/-- C10: the LED handlers read only the low 8 bits of the index: ON, OFF,
TOGGLE and GET are unchanged by adding any multiple of 256 to arg2 (in
particular index argument 256 resolves the same device as index 0), and
SET is unchanged by adding any multiple of 2^24 to arg2 (bits 24 to 31
are ignored). -/
theorem led_index_low_bits {S : Type} (hal : Option (LedHal S))
    (prov : DdtState) (st : S) (sys_id : Nat) (arg0 arg1 arg2 hi : Int) :
    sys_led_on hal prov st sys_id arg0 arg1 (arg2 + hi * 256)
      = sys_led_on hal prov st sys_id arg0 arg1 arg2 ∧
    sys_led_off hal prov st sys_id arg0 arg1 (arg2 + hi * 256)
      = sys_led_off hal prov st sys_id arg0 arg1 arg2 ∧
    sys_led_toggle hal prov st sys_id arg0 arg1 (arg2 + hi * 256)
      = sys_led_toggle hal prov st sys_id arg0 arg1 arg2 ∧
    sys_led_get hal prov st sys_id arg0 arg1 (arg2 + hi * 256)
      = sys_led_get hal prov st sys_id arg0 arg1 arg2 ∧
    sys_led_set hal prov st sys_id arg0 arg1 (arg2 + hi * 16777216)
      = sys_led_set hal prov st sys_id arg0 arg1 arg2 ∧
    find_led prov arg0 arg1 256 = find_led prov arg0 arg1 0 := by
  have hu : u8cast (arg2 + hi * 256) = u8cast arg2 := by
    unfold u8cast
    omega
  have hfl : find_led prov arg0 arg1 (arg2 + hi * 256)
      = find_led prov arg0 arg1 arg2 := by
    unfold find_led
    rw [hu]
  obtain ⟨hsi, hss⟩ := ledSet_decode_congr arg2 hi
  have h256 : u8cast (256 : Int) = u8cast (0 : Int) := by decide
  refine ⟨?_, ?_, ?_, ?_, ?_, ?_⟩
  · simp [sys_led_on, hfl]
  · simp [sys_led_off, hfl]
  · simp [sys_led_toggle, hfl]
  · simp [sys_led_get, hfl]
  · simp [sys_led_set, hsi, hss]
  · unfold find_led
    rw [h256]

end V4std
